import Mathlib

/-!
Verification of the geometric core of the Bowlsaver digital twin
(`src/functions.js`).

JavaScript numbers are modelled as real numbers: `Math.sqrt` becomes
`Real.sqrt`, `Math.atan2` becomes an explicit case split over
`Real.arctan`, and the JS remainder operator `a % b` becomes `jsMod`
(remainder of truncated division, carrying the sign of the dividend).
SVG/DOM presentation state (path strings, CSS classes, dimension
labels) is not modelled; the derived geometric quantities that feed it
(intersection point lists, the entry-point measurement, the tailstock
reachability flag) are modelled as pure functions of the assembly
state, exactly as the source computes them.
-/

namespace Bowlsaver

noncomputable section

/-- Truncation of a real toward zero, as JS applies inside `a % b`. -/
def jsTrunc (x : ℝ) : ℤ := if 0 ≤ x then ⌊x⌋ else -⌊-x⌋

/-- The JavaScript remainder operator `a % b`: `a - b * trunc (a / b)`.
Used in the source only with `b = 360`. -/
def jsMod (a b : ℝ) : ℝ := a - b * jsTrunc (a / b)

/-- JS `Math.atan2(y, x)` (radians, range `(-π, π]`, `atan2 0 0 = 0`). -/
def atan2 (y x : ℝ) : ℝ :=
  if 0 < x then Real.arctan (y / x)
  else if x < 0 then
    (if 0 ≤ y then Real.arctan (y / x) + Real.pi
     else Real.arctan (y / x) - Real.pi)
  else
    (if 0 < y then Real.pi / 2 else if y < 0 then -(Real.pi / 2) else 0)

/-- `class Vector` (functions.js:203): an immutable pair of coordinates;
every operation returns a new value. -/
structure Vector where
  x : ℝ
  y : ℝ

/-- `Vector.add` (functions.js:228). -/
def Vector.add (v w : Vector) : Vector := ⟨v.x + w.x, v.y + w.y⟩

/-- `Vector.subtract` (functions.js:237). -/
def Vector.subtract (v w : Vector) : Vector := ⟨v.x - w.x, v.y - w.y⟩

/-- `Vector.scale` (functions.js:246). -/
def Vector.scale (v : Vector) (scalar : ℝ) : Vector := ⟨v.x * scalar, v.y * scalar⟩

/-- `Vector.arg` (functions.js:262): `Math.atan2(y, x) * (180 / Math.PI)`. -/
def Vector.arg (v : Vector) : ℝ := atan2 v.y v.x * (180 / Real.pi)

namespace MathUtils

/-- `MathUtils.degreesToRadians` (functions.js:11). -/
def degreesToRadians (degrees : ℝ) : ℝ := degrees * Real.pi / 180

/-- `MathUtils.radiansToDegrees` (functions.js:20). -/
def radiansToDegrees (radians : ℝ) : ℝ := radians * 180 / Real.pi

/-- `MathUtils.angleFromArcLength` (functions.js:30). -/
def angleFromArcLength (radius length : ℝ) : ℝ :=
  length / radius * (180 / Real.pi)

/-- `MathUtils.normalizeAngle` (functions.js:39): `(angle + 360) % 360`. -/
def normalizeAngle (angle : ℝ) : ℝ := jsMod (angle + 360) 360

/-- `MathUtils.polarToCartesian` (functions.js:49): note the `- 90`
offset applied to the angle before conversion. -/
def polarToCartesian (radius angleInDegrees : ℝ) : Vector :=
  ⟨radius * Real.cos ((angleInDegrees - 90) * (Real.pi / 180)),
   radius * Real.sin ((angleInDegrees - 90) * (Real.pi / 180))⟩

/-- `MathUtils.isAngleBetween` (functions.js:68). -/
def isAngleBetween (angle startAngle endAngle : ℝ) : Bool :=
  let normalizedAngle := normalizeAngle angle
  let normalizedStart := normalizeAngle startAngle
  let normalizedEnd := normalizeAngle endAngle
  if normalizedStart ≤ normalizedEnd then
    decide (normalizedAngle ≥ normalizedStart ∧ normalizedAngle ≤ normalizedEnd)
  else
    decide (normalizedAngle ≥ normalizedStart ∨ normalizedAngle ≤ normalizedEnd)

/-- The inner helper `isWithinArc` of `MathUtils.getIntersectingArcs`
(functions.js:190). -/
def isWithinArc (arcCenter : Vector) (arcStart arcEnd : ℝ) (pt : Vector) : Bool :=
  isAngleBetween ((pt.subtract arcCenter).arg) arcStart arcEnd

/-- `MathUtils.getIntersectingArcs` (functions.js:181): pushes `p1`
then `p2`, keeping each candidate that lies within the arc span. -/
def getIntersectingArcs (p1 p2 : Vector) (arcCenter : Vector)
    (arcStart arcEnd : ℝ) : List Vector :=
  (if isWithinArc arcCenter arcStart arcEnd p1 then [p1] else []) ++
  (if isWithinArc arcCenter arcStart arcEnd p2 then [p2] else [])

/-- `MathUtils.intersectionLineArcVertical` (functions.js:93). -/
def intersectionLineArcVertical (arcCenter : Vector)
    (r arcStart arcEnd x0 : ℝ) : List Vector :=
  let h := arcCenter.x
  let k := arcCenter.y
  let discriminant := r * r - (x0 - h) * (x0 - h)
  if discriminant < 0 then []
  else
    let sqrtD := Real.sqrt discriminant
    getIntersectingArcs ⟨x0, k + sqrtD⟩ ⟨x0, k - sqrtD⟩ arcCenter arcStart arcEnd

/-- `MathUtils.intersectionLineArcHorizontal` (functions.js:121).  The
`isHorizontal` parameter is accepted and ignored, as in the source. -/
def intersectionLineArcHorizontal (arcCenter : Vector)
    (r arcStart arcEnd : ℝ) (isHorizontal : Bool) (y0 : ℝ) : List Vector :=
  let h := arcCenter.x
  let k := arcCenter.y
  let term := r * r - (y0 - k) * (y0 - k)
  if term < 0 then []
  else
    let sqrtT := Real.sqrt term
    getIntersectingArcs ⟨h + sqrtT, y0⟩ ⟨h - sqrtT, y0⟩ arcCenter arcStart arcEnd

/-- `MathUtils.intersectionLineArcAngle` (functions.js:154). -/
def intersectionLineArcAngle (arcCenter : Vector)
    (r arcStart arcEnd m c : ℝ) : List Vector :=
  let h := arcCenter.x
  let k := arcCenter.y
  let A := 1 + m * m
  let B := -2 * h + 2 * m * (c - k)
  let C := h * h + (c - k) * (c - k) - r * r
  let discriminant := B * B - 4 * A * C
  if discriminant < 0 then []
  else
    let sqrtDiscriminant := Real.sqrt discriminant
    let x1 := (-B + sqrtDiscriminant) / (2 * A)
    let x2 := (-B - sqrtDiscriminant) / (2 * A)
    getIntersectingArcs ⟨x1, m * x1 + c⟩ ⟨x2, m * x2 + c⟩ arcCenter arcStart arcEnd

end MathUtils

/-- `Vector.fromPolar` (functions.js:215): converts via
`degreesToRadians` with no angle offset. -/
def Vector.fromPolar (magnitude angleInDegrees : ℝ) : Vector :=
  ⟨magnitude * Real.cos (MathUtils.degreesToRadians angleInDegrees),
   magnitude * Real.sin (MathUtils.degreesToRadians angleInDegrees)⟩

/-- The two endpoints (`start`, `end`) that `Arc.generateArcPath`
(functions.js:690) feeds into the SVG path string: both are computed
with `Vector.fromPolar`. -/
def generateArcPathEndpoints (radius inherentRotation arcAngle : ℝ) :
    Vector × Vector :=
  (Vector.fromPolar radius (inherentRotation + arcAngle),
   Vector.fromPolar radius inherentRotation)

/-- `const cutterKerf = 10` (functions.js:466). -/
def cutterKerf : ℝ := 10

/-- `const tailstockFixArcRadius = 175` (functions.js:467). -/
def tailstockFixArcRadius : ℝ := 175

/-- `const tailstockFixArcDegrees` (functions.js:468). -/
def tailstockFixArcDegrees : ℝ :=
  MathUtils.angleFromArcLength tailstockFixArcRadius 115

/-- `const cutterArcDegrees = 90` (functions.js:469). -/
def cutterArcDegrees : ℝ := 90

/-- The cutter arc's `inherentRotation`, passed as `90` when the
`CutterAssembly` constructor builds `this.cutterArc` (functions.js:828). -/
def cutterArcInherentRotation : ℝ := 90

/-- The tailstock fix arc's `inherentRotation`,
`- tailstockFixArcDegrees / 2` (functions.js:839). -/
def tailstockInherentRotation : ℝ := -(tailstockFixArcDegrees / 2)

/-- `class Cut` (functions.js:357).  The `svg_arc` field is presentation
state and is not modelled. -/
structure Cut where
  center : Vector
  rotation : ℝ
  radius : ℝ
  wasSaved : Bool

/-- `Cut.clone` (functions.js:366): `new Cut(center, rotation, radius)`,
so the constructor resets `wasSaved` to `false` on the copy. -/
def Cut.clone (c : Cut) : Cut :=
  { center := c.center, rotation := c.rotation, radius := c.radius,
    wasSaved := false }

/-- The combined geometric state of `Drawing` and its `CutterAssembly`
(functions.js:795, functions.js:941).  In the source
`assembly.currentCut` and `drawing.currentCut` are the same object, so
a single `currentCut` field is kept here.  `Vector` operations in the
source always return fresh objects and every pose mutation reassigns a
field reference (never mutates a shared `Vector` in place), so value
semantics is a faithful model.  `entryPointDim` is the currently
displayed entry-point measurement (the `entryPointDim` SVG dimension:
`some (point, dy)` when visible, `none` when hidden); it is refreshed
only where the source calls `updateEntryPointDim`, namely in `moveTo`
(functions.js:887) — `rotate` and `setRadius` leave it untouched. -/
structure DrawingState where
  cuts : List Cut
  currentCut : Cut
  assemblyCenter : Vector
  rotationAngle : ℝ
  cutterRadius : ℝ
  workpieceDim : Vector
  entryPointDim : Option (Vector × ℝ)

/-- The intersection list `CutterAssembly.updateEntryPointDim`
(functions.js:918) computes when invoked on a given state: cutter arc
span at radius `cutterRadius + kerf/2` against the vertical line at
the workpiece's far edge. -/
def entryPointIntersections (s : DrawingState) : List Vector :=
  MathUtils.intersectionLineArcVertical s.assemblyCenter
    (s.cutterRadius + cutterKerf / 2)
    (cutterArcInherentRotation + s.rotationAngle)
    (cutterArcInherentRotation + s.rotationAngle + cutterArcDegrees)
    s.workpieceDim.x

/-- The measurement `CutterAssembly.updateEntryPointDim`
(functions.js:914) computes from the state at the moment it is
invoked: `some (point, dy)` exactly when that invocation shows the
dimension, `none` when it hides it.  The source invokes it only from
`moveTo` (functions.js:887); `rotate` and `setRadius` do not re-run
it, so the *displayed* measurement is the `entryPointDim` state field,
which can be stale relative to the live rotation and radius. -/
def entryPointResult (s : DrawingState) : Option (Vector × ℝ) :=
  match entryPointIntersections s with
  | [p] =>
    if 0 < s.workpieceDim.y / 2 - p.y ∧
        s.workpieceDim.y / 2 - p.y < s.workpieceDim.y / 2 then
      some (p, s.workpieceDim.y / 2 - p.y)
    else none
  | _ => none

/-- `CutterAssembly.moveTo` (functions.js:859): updates the assembly
center and the live cut's center, then (functions.js:887) calls
`updateEntryPointDim`, refreshing the displayed entry-point
measurement from the new pose.  The other dimension SVG updates it
performs are presentation state and are not modelled. -/
def moveTo (s : DrawingState) (pos : Vector) : DrawingState :=
  let s' := { s with assemblyCenter := pos,
                     currentCut := { s.currentCut with center := pos } }
  { s' with entryPointDim := entryPointResult s' }

/-- `CutterAssembly.rotate` (functions.js:890): stores `angle % 360` as
`rotationAngle` but the raw `angle` on the live cut.  It calls
`checkTailstockArc` but not `updateEntryPointDim`, so the displayed
entry-point measurement is left as it was. -/
def rotate (s : DrawingState) (angle : ℝ) : DrawingState :=
  { s with rotationAngle := jsMod angle 360,
           currentCut := { s.currentCut with rotation := angle } }

/-- `CutterAssembly.setRadius` (functions.js:852): calls neither
`checkTailstockArc` nor `updateEntryPointDim`. -/
def setRadius (s : DrawingState) (radius : ℝ) : DrawingState :=
  { s with cutterRadius := radius,
           currentCut := { s.currentCut with radius := radius } }

/-- `Drawing.addCurrentCut` (functions.js:1099): pushes a clone of the
live cut and clears its `wasSaved` flag. -/
def addCurrentCut (s : DrawingState) : DrawingState :=
  { s with cuts := s.cuts ++ [s.currentCut.clone],
           currentCut := { s.currentCut with wasSaved := false } }

/-- `Drawing.selectCut` (functions.js:1106): removes the chosen
snapshot, re-saves the live cut first when it was itself derived from
history, then overwrites the live cut's fields and replays the pose
through `moveTo`, `rotate` and `setRadius`.  The UI only calls it with
a valid index; an out-of-range index leaves the state unchanged here. -/
def selectCut (s : DrawingState) (index : ℕ) : DrawingState :=
  match s.cuts[index]? with
  | none => s
  | some cut =>
    let removed := s.cuts.eraseIdx index
    let withResaved :=
      if s.currentCut.wasSaved then removed ++ [s.currentCut.clone] else removed
    let s' := { s with
      cuts := withResaved,
      currentCut := { center := cut.center, rotation := cut.rotation,
                      radius := cut.radius, wasSaved := true } }
    setRadius (rotate (moveTo s' cut.center) cut.rotation) cut.radius

/-- The intersection list computed by `CutterAssembly.checkTailstockArc`
(functions.js:898).  The source's call passes `0` in the `isHorizontal`
slot (a falsy value) and lets `y0` default to `0`. -/
def tailstockIntersections (s : DrawingState) : List Vector :=
  MathUtils.intersectionLineArcHorizontal s.assemblyCenter
    tailstockFixArcRadius
    (tailstockInherentRotation + s.rotationAngle)
    (tailstockInherentRotation + s.rotationAngle + tailstockFixArcDegrees)
    false 0

/-- The `hasIntersections` reachability flag of
`CutterAssembly.checkTailstockArc` (functions.js:910). -/
def tailstockReachable (s : DrawingState) : Bool :=
  decide (0 < (tailstockIntersections s).length)

/-- One externally triggered pose edit on the assembly. -/
inductive Edit where
  | move : Vector → Edit
  | rot : ℝ → Edit
  | radius : ℝ → Edit

/-- Apply one pose edit. -/
def applyEdit (s : DrawingState) : Edit → DrawingState
  | .move p => moveTo s p
  | .rot a => rotate s a
  | .radius r => setRadius s r

/-- Apply a sequence of pose edits in order. -/
def applyEdits (s : DrawingState) (es : List Edit) : DrawingState :=
  es.foldl applyEdit s

/-- Modelled from the spec (section 4.1): the specified normalization
`((a mod 360) + 360) mod 360`, with `mod` the JS remainder.  This is
the spec-side formula to compare `normalizeAngle` against. -/
def specNormalizeAngle (a : ℝ) : ℝ := jsMod (jsMod a 360 + 360) 360

/-- Modelled from the spec (section 4.2): `isAngleBetween` as the spec
words it, with all three inputs first normalized to `[0, 360)` by the
spec's normalization formula. -/
def specIsAngleBetween (angle startAngle endAngle : ℝ) : Bool :=
  let na := specNormalizeAngle angle
  let ns := specNormalizeAngle startAngle
  let ne := specNormalizeAngle endAngle
  if ns ≤ ne then decide (na ≥ ns ∧ na ≤ ne)
  else decide (na ≥ ns ∨ na ≤ ne)

/-- Demo state for witnesses: empty history, fresh live cut. -/
def demoState : DrawingState :=
  { cuts := [],
    currentCut := { center := ⟨0, 0⟩, rotation := 0, radius := 0, wasSaved := false },
    assemblyCenter := ⟨0, 0⟩, rotationAngle := 0, cutterRadius := 0,
    workpieceDim := ⟨0, 0⟩, entryPointDim := none }

/-- Demo edit sequence before the first commit. -/
def demoE1 : List Edit := [.move ⟨150, 20⟩, .rot 30, .radius 60]

/-- Demo edit sequence between the two commits. -/
def demoE2 : List Edit := [.move ⟨100, 10⟩, .rot 45, .radius 50]

/-- Demo state for witnesses: one history entry and a live cut that was
itself derived from history (`wasSaved = true`). -/
def demoHistState : DrawingState :=
  { cuts := [{ center := ⟨3, 4⟩, rotation := 5, radius := 6, wasSaved := false }],
    currentCut := { center := ⟨1, 1⟩, rotation := 2, radius := 3, wasSaved := true },
    assemblyCenter := ⟨1, 1⟩, rotationAngle := 2, cutterRadius := 3,
    workpieceDim := ⟨80, 300⟩, entryPointDim := none }

/-- Demo state for witnesses: the kerf-offset cutter circle (radius
`5 + 10/2 = 10`) misses the workpiece far edge at `x = 11`. -/
def epDemo : DrawingState :=
  { cuts := [],
    currentCut := { center := ⟨0, 0⟩, rotation := 0, radius := 0, wasSaved := false },
    assemblyCenter := ⟨0, 0⟩, rotationAngle := 0, cutterRadius := 5,
    workpieceDim := ⟨11, 300⟩, entryPointDim := none }

/-- Demo state for witnesses: the assembly center is farther than the
tailstock arc radius from the centerline, so no intersection exists. -/
def tsDemo : DrawingState :=
  { cuts := [],
    currentCut := { center := ⟨0, 200⟩, rotation := 0, radius := 0, wasSaved := false },
    assemblyCenter := ⟨0, 200⟩, rotationAngle := 0, cutterRadius := 5,
    workpieceDim := ⟨80, 300⟩, entryPointDim := none }

/-- Base state for the entry-point staleness counterexample: moving the
assembly to `(16, 0)` with cutter radius 5 (kerf-offset radius 10) and
workpiece `(10, 40)` makes the kerf circle cross the far edge `x = 10`
at `(10, 8)` and `(10, -8)`, of which only `(10, 8)` lies in the
unrotated cutter span `[90, 180]`. -/
def cexBase : DrawingState :=
  { cuts := [],
    currentCut := { center := ⟨0, 0⟩, rotation := 0, radius := 0, wasSaved := false },
    assemblyCenter := ⟨0, 0⟩, rotationAngle := 0, cutterRadius := 5,
    workpieceDim := ⟨10, 40⟩, entryPointDim := none }

/-! ## Arithmetic evaluation lemmas for `jsMod` and `normalizeAngle` -/

theorem jsMod_eval_nonneg (a b : ℝ) (n : ℤ) (hb : 0 < b) (ha : 0 ≤ a)
    (h1 : (n : ℝ) * b ≤ a) (h2 : a < ((n : ℝ) + 1) * b) :
    jsMod a b = a - b * n := by
  have hx : 0 ≤ a / b := div_nonneg ha hb.le
  have hfl : ⌊a / b⌋ = n := by
    rw [Int.floor_eq_iff]
    constructor
    · rw [le_div_iff hb]; exact h1
    · rw [div_lt_iff hb]; push_cast; exact h2
  simp only [jsMod, jsTrunc, if_pos hx, hfl]

theorem jsMod_eval_neg (a b : ℝ) (n : ℤ) (hb : 0 < b) (ha : a < 0)
    (h1 : (n : ℝ) * b ≤ -a) (h2 : -a < ((n : ℝ) + 1) * b) :
    jsMod a b = a + b * n := by
  have hx : ¬ (0 ≤ a / b) := by
    push_neg
    exact div_neg_of_neg_of_pos ha hb
  have hfl : ⌊-(a / b)⌋ = n := by
    rw [Int.floor_eq_iff]
    rw [← neg_div]
    constructor
    · rw [le_div_iff hb]; exact h1
    · rw [div_lt_iff hb]; push_cast; exact h2
  simp only [jsMod, jsTrunc, if_neg hx, hfl]
  push_cast
  ring

theorem jsMod_mem_Ico (a b : ℝ) (hb : 0 < b) (ha : 0 ≤ a) :
    jsMod a b ∈ Set.Ico 0 b := by
  have hx : 0 ≤ a / b := div_nonneg ha hb.le
  have h1 : (⌊a / b⌋ : ℝ) * b ≤ a := by
    rw [← le_div_iff hb]; exact Int.floor_le _
  have h2 : a < ((⌊a / b⌋ : ℝ) + 1) * b := by
    rw [← div_lt_iff hb]; exact Int.lt_floor_add_one _
  simp only [jsMod, jsTrunc, if_pos hx, Set.mem_Ico]
  constructor <;> nlinarith

theorem jsMod_neg50 : jsMod (-50) 360 = -50 := by
  have h := jsMod_eval_neg (-50) 360 0 (by norm_num) (by norm_num)
    (by norm_num) (by norm_num)
  rw [h]; norm_num

theorem normalizeAngle_eval (a : ℝ) (n : ℤ) (ha : 0 ≤ a + 360)
    (h1 : (n : ℝ) * 360 ≤ a + 360) (h2 : a + 360 < ((n : ℝ) + 1) * 360) :
    MathUtils.normalizeAngle a = a + 360 - 360 * n :=
  jsMod_eval_nonneg _ _ n (by norm_num) ha h1 h2

theorem normalizeAngle_zero : MathUtils.normalizeAngle 0 = 0 := by
  rw [normalizeAngle_eval 0 1 (by norm_num) (by norm_num) (by norm_num)]
  norm_num

theorem normalizeAngle_360 : MathUtils.normalizeAngle 360 = 0 := by
  rw [normalizeAngle_eval 360 2 (by norm_num) (by norm_num) (by norm_num)]
  norm_num

theorem normalizeAngle_90 : MathUtils.normalizeAngle 90 = 90 := by
  rw [normalizeAngle_eval 90 1 (by norm_num) (by norm_num) (by norm_num)]
  norm_num

theorem normalizeAngle_neg90 : MathUtils.normalizeAngle (-90) = 270 := by
  rw [normalizeAngle_eval (-90) 0 (by norm_num) (by norm_num) (by norm_num)]
  norm_num

theorem normalizeAngle_350 : MathUtils.normalizeAngle 350 = 350 := by
  rw [normalizeAngle_eval 350 1 (by norm_num) (by norm_num) (by norm_num)]
  norm_num

theorem normalizeAngle_10 : MathUtils.normalizeAngle 10 = 10 := by
  rw [normalizeAngle_eval 10 1 (by norm_num) (by norm_num) (by norm_num)]
  norm_num

theorem normalizeAngle_180 : MathUtils.normalizeAngle 180 = 180 := by
  rw [normalizeAngle_eval 180 1 (by norm_num) (by norm_num) (by norm_num)]
  norm_num

theorem normalizeAngle_320 : MathUtils.normalizeAngle 320 = 320 := by
  rw [normalizeAngle_eval 320 1 (by norm_num) (by norm_num) (by norm_num)]
  norm_num

theorem normalizeAngle_neg40 : MathUtils.normalizeAngle (-40) = 320 := by
  rw [normalizeAngle_eval (-40) 0 (by norm_num) (by norm_num) (by norm_num)]
  norm_num

theorem normalizeAngle_neg50 : MathUtils.normalizeAngle (-50) = 310 := by
  rw [normalizeAngle_eval (-50) 0 (by norm_num) (by norm_num) (by norm_num)]
  norm_num

theorem normalizeAngle_neg400 : MathUtils.normalizeAngle (-400) = -40 := by
  have h := jsMod_eval_neg (-400 + 360) 360 0 (by norm_num) (by norm_num)
    (by norm_num) (by norm_num)
  unfold MathUtils.normalizeAngle
  rw [h]; norm_num

/-! ## Characterization and evaluation of `isAngleBetween` -/

theorem isAngleBetween_iff (a s e : ℝ) :
    MathUtils.isAngleBetween a s e = true ↔
      (if MathUtils.normalizeAngle s ≤ MathUtils.normalizeAngle e then
        MathUtils.normalizeAngle s ≤ MathUtils.normalizeAngle a ∧
          MathUtils.normalizeAngle a ≤ MathUtils.normalizeAngle e
      else
        MathUtils.normalizeAngle s ≤ MathUtils.normalizeAngle a ∨
          MathUtils.normalizeAngle a ≤ MathUtils.normalizeAngle e) := by
  by_cases hc : MathUtils.normalizeAngle s ≤ MathUtils.normalizeAngle e
  · simp [MathUtils.isAngleBetween, hc, ge_iff_le]
  · simp [MathUtils.isAngleBetween, hc, ge_iff_le]

theorem isAngleBetween_eq_true (a s e : ℝ)
    (h : if MathUtils.normalizeAngle s ≤ MathUtils.normalizeAngle e then
        MathUtils.normalizeAngle s ≤ MathUtils.normalizeAngle a ∧
          MathUtils.normalizeAngle a ≤ MathUtils.normalizeAngle e
      else
        MathUtils.normalizeAngle s ≤ MathUtils.normalizeAngle a ∨
          MathUtils.normalizeAngle a ≤ MathUtils.normalizeAngle e) :
    MathUtils.isAngleBetween a s e = true :=
  (isAngleBetween_iff a s e).mpr h

theorem isAngleBetween_eq_false (a s e : ℝ)
    (h : ¬ (if MathUtils.normalizeAngle s ≤ MathUtils.normalizeAngle e then
        MathUtils.normalizeAngle s ≤ MathUtils.normalizeAngle a ∧
          MathUtils.normalizeAngle a ≤ MathUtils.normalizeAngle e
      else
        MathUtils.normalizeAngle s ≤ MathUtils.normalizeAngle a ∨
          MathUtils.normalizeAngle a ≤ MathUtils.normalizeAngle e)) :
    MathUtils.isAngleBetween a s e = false := by
  rw [Bool.eq_false_iff]
  intro ht
  exact h ((isAngleBetween_iff a s e).mp ht)

theorem iab_90_0_360 : MathUtils.isAngleBetween 90 0 360 = false := by
  apply isAngleBetween_eq_false
  rw [normalizeAngle_90, normalizeAngle_zero, normalizeAngle_360, if_pos le_rfl]
  norm_num

theorem iab_neg90_0_360 : MathUtils.isAngleBetween (-90) 0 360 = false := by
  apply isAngleBetween_eq_false
  rw [normalizeAngle_neg90, normalizeAngle_zero, normalizeAngle_360, if_pos le_rfl]
  norm_num

theorem iab_0_0_360 : MathUtils.isAngleBetween 0 0 360 = true := by
  apply isAngleBetween_eq_true
  rw [normalizeAngle_zero, normalizeAngle_360, if_pos le_rfl]
  norm_num

theorem iab_0_350_10 : MathUtils.isAngleBetween 0 350 10 = true := by
  apply isAngleBetween_eq_true
  rw [normalizeAngle_zero, normalizeAngle_350, normalizeAngle_10,
    if_neg (by norm_num : ¬ (350 : ℝ) ≤ 10)]
  norm_num

theorem iab_180_350_10 : MathUtils.isAngleBetween 180 350 10 = false := by
  apply isAngleBetween_eq_false
  rw [normalizeAngle_180, normalizeAngle_350, normalizeAngle_10,
    if_neg (by norm_num : ¬ (350 : ℝ) ≤ 10)]
  norm_num

theorem iab_320_neg400_10 : MathUtils.isAngleBetween 320 (-400) 10 = false := by
  apply isAngleBetween_eq_false
  rw [normalizeAngle_320, normalizeAngle_neg400, normalizeAngle_10,
    if_pos (by norm_num : (-40 : ℝ) ≤ 10)]
  norm_num

theorem iab_0_neg90_90 : MathUtils.isAngleBetween 0 (-90) 90 = true := by
  apply isAngleBetween_eq_true
  rw [normalizeAngle_zero, normalizeAngle_neg90, normalizeAngle_90,
    if_neg (by norm_num : ¬ (270 : ℝ) ≤ 90)]
  norm_num

/-! ## Evaluation of the spec-side normalization and membership -/

theorem specNormalizeAngle_neg400 : specNormalizeAngle (-400) = 320 := by
  unfold specNormalizeAngle
  rw [jsMod_eval_neg (-400) 360 1 (by norm_num) (by norm_num) (by norm_num)
    (by norm_num)]
  rw [show (-400 : ℝ) + 360 * (1 : ℤ) + 360 = 320 by push_cast; ring]
  rw [jsMod_eval_nonneg 320 360 0 (by norm_num) (by norm_num) (by norm_num)
    (by norm_num)]
  norm_num

theorem specNormalizeAngle_320 : specNormalizeAngle 320 = 320 := by
  unfold specNormalizeAngle
  rw [jsMod_eval_nonneg 320 360 0 (by norm_num) (by norm_num) (by norm_num)
    (by norm_num)]
  rw [show (320 : ℝ) - 360 * (0 : ℤ) + 360 = 680 by push_cast; ring]
  rw [jsMod_eval_nonneg 680 360 1 (by norm_num) (by norm_num) (by norm_num)
    (by norm_num)]
  norm_num

theorem specNormalizeAngle_10 : specNormalizeAngle 10 = 10 := by
  unfold specNormalizeAngle
  rw [jsMod_eval_nonneg 10 360 0 (by norm_num) (by norm_num) (by norm_num)
    (by norm_num)]
  rw [show (10 : ℝ) - 360 * (0 : ℤ) + 360 = 370 by push_cast; ring]
  rw [jsMod_eval_nonneg 370 360 1 (by norm_num) (by norm_num) (by norm_num)
    (by norm_num)]
  norm_num

theorem specIab_320_neg400_10 : specIsAngleBetween 320 (-400) 10 = true := by
  unfold specIsAngleBetween
  rw [specNormalizeAngle_320, specNormalizeAngle_neg400, specNormalizeAngle_10,
    if_neg (by norm_num : ¬ (320 : ℝ) ≤ 10)]
  rw [decide_eq_true_iff]
  left
  norm_num

/-! ## Evaluation of `Vector.arg` and square roots -/

theorem arg_up {r : ℝ} (hr : 0 < r) : Vector.arg ⟨0, r⟩ = 90 := by
  unfold Vector.arg atan2
  rw [if_neg (lt_irrefl 0), if_neg (lt_irrefl 0), if_pos hr]
  field_simp
  ring

theorem arg_down {r : ℝ} (hr : r < 0) : Vector.arg ⟨0, r⟩ = -90 := by
  unfold Vector.arg atan2
  rw [if_neg (lt_irrefl 0), if_neg (lt_irrefl 0),
    if_neg (by exact absurd · (not_lt.mpr hr.le)), if_pos hr]
  field_simp
  ring

theorem arg_right {r : ℝ} (hr : 0 < r) : Vector.arg ⟨r, 0⟩ = 0 := by
  unfold Vector.arg atan2
  rw [if_pos hr]
  simp [Real.arctan_zero]

theorem arg_left {r : ℝ} (hr : r < 0) : Vector.arg ⟨r, 0⟩ = 180 := by
  unfold Vector.arg atan2
  rw [if_neg (not_lt.mpr hr.le), if_pos hr, if_pos le_rfl]
  rw [zero_div, Real.arctan_zero, zero_add]
  field_simp

theorem sqrt_100 : Real.sqrt 100 = 10 := by
  rw [show (100 : ℝ) = 10 ^ 2 by norm_num,
    Real.sqrt_sq (by norm_num : (0 : ℝ) ≤ 10)]

/-! ## Generic lemmas about the three intersection solvers -/

theorem mem_getIntersectingArcs {p p1 p2 c : Vector} {s e : ℝ}
    (h : p ∈ MathUtils.getIntersectingArcs p1 p2 c s e) :
    (p = p1 ∨ p = p2) ∧
      MathUtils.isAngleBetween ((p.subtract c).arg) s e = true := by
  unfold MathUtils.getIntersectingArcs MathUtils.isWithinArc at h
  by_cases h1 : MathUtils.isAngleBetween ((p1.subtract c).arg) s e = true <;>
    by_cases h2 : MathUtils.isAngleBetween ((p2.subtract c).arg) s e = true <;>
    simp only [h1, h2, if_true, if_false, Bool.false_eq_true, if_neg,
      List.append_nil, List.nil_append, List.mem_append, List.mem_singleton,
      List.not_mem_nil, or_false, false_or] at h
  · rcases h with rfl | rfl
    · exact ⟨Or.inl rfl, h1⟩
    · exact ⟨Or.inr rfl, h2⟩
  · subst h; exact ⟨Or.inl rfl, h1⟩
  · subst h; exact ⟨Or.inr rfl, h2⟩

theorem length_getIntersectingArcs (p1 p2 c : Vector) (s e : ℝ) :
    (MathUtils.getIntersectingArcs p1 p2 c s e).length ≤ 2 := by
  unfold MathUtils.getIntersectingArcs
  split_ifs <;> simp

theorem intersectionLineArcVertical_eq_nil {c : Vector} {r s e x0 : ℝ}
    (h : r * r - (x0 - c.x) * (x0 - c.x) < 0) :
    MathUtils.intersectionLineArcVertical c r s e x0 = [] := by
  simp only [MathUtils.intersectionLineArcVertical]
  rw [if_pos h]

theorem intersectionLineArcHorizontal_eq_nil {c : Vector} {r s e : ℝ}
    {ih : Bool} {y0 : ℝ}
    (h : r * r - (y0 - c.y) * (y0 - c.y) < 0) :
    MathUtils.intersectionLineArcHorizontal c r s e ih y0 = [] := by
  simp only [MathUtils.intersectionLineArcHorizontal]
  rw [if_pos h]

theorem intersectionLineArcAngle_eq_nil {cc : Vector} {r s e m b : ℝ}
    (h : (-2 * cc.x + 2 * m * (b - cc.y)) * (-2 * cc.x + 2 * m * (b - cc.y)) -
        4 * (1 + m * m) * (cc.x * cc.x + (b - cc.y) * (b - cc.y) - r * r) < 0) :
    MathUtils.intersectionLineArcAngle cc r s e m b = [] := by
  simp only [MathUtils.intersectionLineArcAngle]
  rw [if_pos h]

/-! ## Concrete evaluations of the vertical solver on the full-span arc -/

theorem vertical_full_circle_left : MathUtils.intersectionLineArcVertical
    ⟨0, 0⟩ 10 0 360 0 = [] := by
  simp only [MathUtils.intersectionLineArcVertical]
  rw [if_neg (by norm_num)]
  rw [show (10 : ℝ) * 10 - ((0 : ℝ) - (Vector.mk 0 0).x) * ((0 : ℝ) - (Vector.mk 0 0).x)
      = 100 by norm_num]
  rw [sqrt_100]
  rw [show (Vector.mk (0 : ℝ) (0 : ℝ)).y + 10 = 10 by norm_num,
    show (Vector.mk (0 : ℝ) (0 : ℝ)).y - 10 = -10 by norm_num]
  unfold MathUtils.getIntersectingArcs MathUtils.isWithinArc
  rw [show (Vector.mk (0 : ℝ) 10).subtract ⟨0, 0⟩ = ⟨0, 10⟩ by
      simp [Vector.subtract],
    show (Vector.mk (0 : ℝ) (-10)).subtract ⟨0, 0⟩ = ⟨0, -10⟩ by
      simp [Vector.subtract]]
  rw [arg_up (by norm_num : (0 : ℝ) < 10), arg_down (by norm_num : (-10 : ℝ) < 0)]
  rw [iab_90_0_360, iab_neg90_0_360]
  simp

theorem vertical_full_circle_tangent : MathUtils.intersectionLineArcVertical
    ⟨0, 0⟩ 10 0 360 10 = [⟨10, 0⟩, ⟨10, 0⟩] := by
  simp only [MathUtils.intersectionLineArcVertical]
  rw [if_neg (by norm_num)]
  rw [show (10 : ℝ) * 10 - ((10 : ℝ) - (Vector.mk 0 0).x) * ((10 : ℝ) - (Vector.mk 0 0).x)
      = 0 by norm_num]
  rw [Real.sqrt_zero]
  rw [show (Vector.mk (0 : ℝ) (0 : ℝ)).y + 0 = 0 by norm_num,
    show (Vector.mk (0 : ℝ) (0 : ℝ)).y - 0 = 0 by norm_num]
  unfold MathUtils.getIntersectingArcs MathUtils.isWithinArc
  rw [show (Vector.mk (10 : ℝ) (0 : ℝ)).subtract ⟨0, 0⟩ = ⟨10, 0⟩ by
      simp [Vector.subtract]]
  rw [arg_right (by norm_num : (0 : ℝ) < 10)]
  rw [iab_0_0_360]
  simp

theorem vertical_full_circle_miss : MathUtils.intersectionLineArcVertical
    ⟨0, 0⟩ 10 0 360 11 = [] := by
  apply intersectionLineArcVertical_eq_nil
  norm_num

/-- The tangent evaluation used by the solver-postcondition witness:
the arc span `[-90, 90]` also keeps the tangent point, twice. -/
theorem vertical_halfspan_tangent : MathUtils.intersectionLineArcVertical
    ⟨0, 0⟩ 10 (-90) 90 10 = [⟨10, 0⟩, ⟨10, 0⟩] := by
  simp only [MathUtils.intersectionLineArcVertical]
  rw [if_neg (by norm_num)]
  rw [show (10 : ℝ) * 10 - ((10 : ℝ) - (Vector.mk 0 0).x) * ((10 : ℝ) - (Vector.mk 0 0).x)
      = 0 by norm_num]
  rw [Real.sqrt_zero]
  rw [show (Vector.mk (0 : ℝ) (0 : ℝ)).y + 0 = 0 by norm_num,
    show (Vector.mk (0 : ℝ) (0 : ℝ)).y - 0 = 0 by norm_num]
  unfold MathUtils.getIntersectingArcs MathUtils.isWithinArc
  rw [show (Vector.mk (10 : ℝ) (0 : ℝ)).subtract ⟨0, 0⟩ = ⟨10, 0⟩ by
      simp [Vector.subtract]]
  rw [arg_right (by norm_num : (0 : ℝ) < 10)]
  rw [iab_0_neg90_90]
  simp

/-! ## Evaluations for the entry-point staleness counterexample -/

theorem jsMod_180 : jsMod 180 360 = 180 := by
  rw [jsMod_eval_nonneg 180 360 0 (by norm_num) (by norm_num) (by norm_num)
    (by norm_num)]
  norm_num

theorem normalizeAngle_270 : MathUtils.normalizeAngle 270 = 270 := by
  rw [normalizeAngle_eval 270 1 (by norm_num) (by norm_num) (by norm_num)]
  norm_num

theorem sqrt_64 : Real.sqrt 64 = 8 := by
  rw [show (64 : ℝ) = 8 ^ 2 by norm_num,
    Real.sqrt_sq (by norm_num : (0 : ℝ) ≤ 8)]

theorem arctan43_deg_pos : 0 < Real.arctan (4 / 3) * (180 / Real.pi) := by
  have h : Real.arctan 0 < Real.arctan (4 / 3) :=
    Real.arctan_strictMono (by norm_num)
  rw [Real.arctan_zero] at h
  exact mul_pos h (by positivity)

theorem arctan43_deg_lt_90 : Real.arctan (4 / 3) * (180 / Real.pi) < 90 := by
  have h1 : Real.arctan (4 / 3) < Real.pi / 2 := Real.arctan_lt_pi_div_two _
  have h2 : (0 : ℝ) < 180 / Real.pi := by positivity
  have h3 : Real.arctan (4 / 3) * (180 / Real.pi) <
      Real.pi / 2 * (180 / Real.pi) := mul_lt_mul_of_pos_right h1 h2
  have h4 : Real.pi / 2 * (180 / Real.pi) = 90 := by
    field_simp
    ring
  linarith

theorem arg_q2 : Vector.arg ⟨-6, 8⟩ =
    180 - Real.arctan (4 / 3) * (180 / Real.pi) := by
  unfold Vector.arg atan2
  rw [if_neg (by norm_num : ¬ (0 : ℝ) < -6),
    if_pos (by norm_num : (-6 : ℝ) < 0),
    if_pos (by norm_num : (0 : ℝ) ≤ 8)]
  rw [show (8 : ℝ) / -6 = -(4 / 3) by norm_num, Real.arctan_neg]
  field_simp
  ring

theorem arg_q3 : Vector.arg ⟨-6, -8⟩ =
    Real.arctan (4 / 3) * (180 / Real.pi) - 180 := by
  unfold Vector.arg atan2
  rw [if_neg (by norm_num : ¬ (0 : ℝ) < -6),
    if_pos (by norm_num : (-6 : ℝ) < 0),
    if_neg (by norm_num : ¬ (0 : ℝ) ≤ -8)]
  rw [show (-8 : ℝ) / -6 = (4 : ℝ) / 3 by norm_num]
  field_simp
  ring

theorem nA_q2 : MathUtils.normalizeAngle
    (180 - Real.arctan (4 / 3) * (180 / Real.pi)) =
    180 - Real.arctan (4 / 3) * (180 / Real.pi) := by
  have h1 := arctan43_deg_pos
  have h2 := arctan43_deg_lt_90
  rw [normalizeAngle_eval _ 1 (by linarith) (by push_cast; linarith)
    (by push_cast; linarith)]
  push_cast
  ring

theorem nA_q3 : MathUtils.normalizeAngle
    (Real.arctan (4 / 3) * (180 / Real.pi) - 180) =
    Real.arctan (4 / 3) * (180 / Real.pi) + 180 := by
  have h1 := arctan43_deg_pos
  have h2 := arctan43_deg_lt_90
  rw [normalizeAngle_eval _ 0 (by linarith) (by push_cast; linarith)
    (by push_cast; linarith)]
  push_cast
  ring

theorem iab_q2_90_180 : MathUtils.isAngleBetween
    (180 - Real.arctan (4 / 3) * (180 / Real.pi)) 90 180 = true := by
  apply isAngleBetween_eq_true
  rw [normalizeAngle_90, normalizeAngle_180, nA_q2,
    if_pos (by norm_num : (90 : ℝ) ≤ 180)]
  have h1 := arctan43_deg_pos
  have h2 := arctan43_deg_lt_90
  constructor <;> linarith

theorem iab_q3_90_180 : MathUtils.isAngleBetween
    (Real.arctan (4 / 3) * (180 / Real.pi) - 180) 90 180 = false := by
  apply isAngleBetween_eq_false
  rw [normalizeAngle_90, normalizeAngle_180, nA_q3,
    if_pos (by norm_num : (90 : ℝ) ≤ 180)]
  rintro ⟨hc1, hc2⟩
  have h1 := arctan43_deg_pos
  linarith

theorem iab_q2_270_360 : MathUtils.isAngleBetween
    (180 - Real.arctan (4 / 3) * (180 / Real.pi)) 270 360 = false := by
  apply isAngleBetween_eq_false
  rw [normalizeAngle_270, normalizeAngle_360, nA_q2,
    if_neg (by norm_num : ¬ (270 : ℝ) ≤ 0)]
  have h1 := arctan43_deg_pos
  have h2 := arctan43_deg_lt_90
  rintro (hc | hc) <;> linarith

theorem iab_q3_270_360 : MathUtils.isAngleBetween
    (Real.arctan (4 / 3) * (180 / Real.pi) - 180) 270 360 = false := by
  apply isAngleBetween_eq_false
  rw [normalizeAngle_270, normalizeAngle_360, nA_q3,
    if_neg (by norm_num : ¬ (270 : ℝ) ≤ 0)]
  have h1 := arctan43_deg_pos
  have h2 := arctan43_deg_lt_90
  rintro (hc | hc) <;> linarith

theorem entry_eval_90_180 : MathUtils.intersectionLineArcVertical
    ⟨16, 0⟩ 10 90 180 10 = [⟨10, 8⟩] := by
  simp only [MathUtils.intersectionLineArcVertical]
  rw [if_neg (by norm_num)]
  rw [show (10 : ℝ) * 10 - ((10 : ℝ) - (Vector.mk (16 : ℝ) 0).x) *
      ((10 : ℝ) - (Vector.mk (16 : ℝ) 0).x) = 64 by norm_num]
  rw [sqrt_64]
  rw [show (Vector.mk (16 : ℝ) (0 : ℝ)).y + 8 = 8 by norm_num,
    show (Vector.mk (16 : ℝ) (0 : ℝ)).y - 8 = -8 by norm_num]
  unfold MathUtils.getIntersectingArcs MathUtils.isWithinArc
  rw [show (Vector.mk (10 : ℝ) 8).subtract ⟨16, 0⟩ = ⟨-6, 8⟩ by
      simp [Vector.subtract]; norm_num,
    show (Vector.mk (10 : ℝ) (-8)).subtract ⟨16, 0⟩ = ⟨-6, -8⟩ by
      simp [Vector.subtract]; norm_num]
  rw [arg_q2, arg_q3, iab_q2_90_180, iab_q3_90_180]
  simp

theorem entry_eval_270_360 : MathUtils.intersectionLineArcVertical
    ⟨16, 0⟩ 10 270 360 10 = [] := by
  simp only [MathUtils.intersectionLineArcVertical]
  rw [if_neg (by norm_num)]
  rw [show (10 : ℝ) * 10 - ((10 : ℝ) - (Vector.mk (16 : ℝ) 0).x) *
      ((10 : ℝ) - (Vector.mk (16 : ℝ) 0).x) = 64 by norm_num]
  rw [sqrt_64]
  rw [show (Vector.mk (16 : ℝ) (0 : ℝ)).y + 8 = 8 by norm_num,
    show (Vector.mk (16 : ℝ) (0 : ℝ)).y - 8 = -8 by norm_num]
  unfold MathUtils.getIntersectingArcs MathUtils.isWithinArc
  rw [show (Vector.mk (10 : ℝ) 8).subtract ⟨16, 0⟩ = ⟨-6, 8⟩ by
      simp [Vector.subtract]; norm_num,
    show (Vector.mk (10 : ℝ) (-8)).subtract ⟨16, 0⟩ = ⟨-6, -8⟩ by
      simp [Vector.subtract]; norm_num]
  rw [arg_q2, arg_q3, iab_q2_270_360, iab_q3_270_360]
  simp

/-- `entryPointResult` only reads the pose fields, so two states that
agree on them get the same measurement. -/
theorem entryPointResult_congr {s t : DrawingState}
    (hc : s.assemblyCenter = t.assemblyCenter)
    (hr : s.cutterRadius = t.cutterRadius)
    (ha : s.rotationAngle = t.rotationAngle)
    (hw : s.workpieceDim = t.workpieceDim) :
    entryPointResult s = entryPointResult t := by
  unfold entryPointResult entryPointIntersections
  rw [hc, hr, ha, hw]

/-! ## State-machine helper lemmas -/

theorem applyEdit_cuts (s : DrawingState) (e : Edit) :
    (applyEdit s e).cuts = s.cuts := by
  cases e <;> rfl

theorem applyEdit_wasSaved (s : DrawingState) (e : Edit) :
    (applyEdit s e).currentCut.wasSaved = s.currentCut.wasSaved := by
  cases e <;> rfl

theorem applyEdits_cuts (es : List Edit) : ∀ s : DrawingState,
    (applyEdits s es).cuts = s.cuts := by
  induction es with
  | nil => intro s; rfl
  | cons e es ih =>
    intro s
    have hstep : applyEdits s (e :: es) = applyEdits (applyEdit s e) es := rfl
    rw [hstep, ih, applyEdit_cuts]

theorem applyEdits_wasSaved (es : List Edit) : ∀ s : DrawingState,
    (applyEdits s es).currentCut.wasSaved = s.currentCut.wasSaved := by
  induction es with
  | nil => intro s; rfl
  | cons e es ih =>
    intro s
    have hstep : applyEdits s (e :: es) = applyEdits (applyEdit s e) es := rfl
    rw [hstep, ih, applyEdit_wasSaved]

/-! ## Claim theorems -/

/-- C1.  The claim says `normalizeAngle` maps every real input into
`[0, 360)`, is 360-periodic and idempotent.  The code computes
`(angle + 360) % 360`, which escapes `[0, 360)` for inputs below
`-360`: at `-400` it returns `-40`, renormalizing `-40` gives `320`,
and adding one full turn to `-400` changes the result, so all three
claimed properties fail at this input. -/
theorem normalizeAngle_negative_input_escapes :
    MathUtils.normalizeAngle (-400) = -40 ∧
    ¬ (0 ≤ MathUtils.normalizeAngle (-400) ∧
        MathUtils.normalizeAngle (-400) < 360) ∧
    MathUtils.normalizeAngle (MathUtils.normalizeAngle (-400)) = 320 ∧
    MathUtils.normalizeAngle (-400 + 360 * 1) ≠ MathUtils.normalizeAngle (-400) := by
  refine ⟨normalizeAngle_neg400, ?_, ?_, ?_⟩
  · rw [normalizeAngle_neg400]; norm_num
  · rw [normalizeAngle_neg400, normalizeAngle_neg40]
  · rw [show (-400 : ℝ) + 360 * 1 = -40 by norm_num, normalizeAngle_neg40,
      normalizeAngle_neg400]
    norm_num

/-- C2, counterexample.  On the full-span arc `[0, 360]` of the circle
with center `(0, 0)` and radius 10, the vertical solver does not return
the claimed points `(0, 10)` and `(0, -10)` at `x = 0` (it returns no
points, because `normalizeAngle 360 = 0` collapses the span to the
single angle 0), and at the tangent line `x = 10` it does not return a
single point (it returns the tangent point twice). -/
theorem fullCircle_intersection_counterexample :
    MathUtils.intersectionLineArcVertical ⟨0, 0⟩ 10 0 360 0 ≠
      [⟨0, 10⟩, ⟨0, -10⟩] ∧
    MathUtils.intersectionLineArcVertical ⟨0, 0⟩ 10 0 360 10 ≠ [⟨10, 0⟩] := by
  constructor
  · rw [vertical_full_circle_left]; simp
  · rw [vertical_full_circle_tangent]; simp

/-- C2, amended.  With `arcStart = 0` and `arcEnd = 360` both span ends
normalize to 0, so the membership filter only admits points at angle
exactly 0: the vertical line `x = 0` yields no points, the tangent line
`x = 10` yields the tangent point `(10, 0)` twice (both coincident
quadratic roots are evaluated and kept), and `x = 11` yields no points
(negative discriminant). -/
theorem fullCircle_vertical_intersections :
    MathUtils.intersectionLineArcVertical ⟨0, 0⟩ 10 0 360 0 = [] ∧
    MathUtils.intersectionLineArcVertical ⟨0, 0⟩ 10 0 360 10 =
      [⟨10, 0⟩, ⟨10, 0⟩] ∧
    MathUtils.intersectionLineArcVertical ⟨0, 0⟩ 10 0 360 11 = [] :=
  ⟨vertical_full_circle_left, vertical_full_circle_tangent,
    vertical_full_circle_miss⟩

/-- C3, counterexample.  The claim describes `isAngleBetween` as first
normalizing all three inputs into `[0, 360)`; under that reading (the
spec-side `specIsAngleBetween`), `start = -400` normalizes to `320` and
`isAngleBetween 320 (-400) 10` would be true.  The code's
`normalizeAngle (-400)` is `-40`, so the interval branch is taken and
the call returns false. -/
theorem isAngleBetween_spec_mismatch :
    specIsAngleBetween 320 (-400) 10 = true ∧
    MathUtils.isAngleBetween 320 (-400) 10 = false :=
  ⟨specIab_320_neg400_10, iab_320_neg400_10⟩

/-- C3, amended.  `isAngleBetween` applies the code's `normalizeAngle`
to all three inputs (which lands in `[0, 360)` only for inputs
`≥ -360`); on the normalized values, `start ≤ end` gives closed-interval
membership and `start > end` gives the seam disjunction; both boundary
angles are included; `isAngleBetween 0 350 10` is true and
`isAngleBetween 180 350 10` is false. -/
theorem isAngleBetween_characterization (a s e : ℝ) :
    (MathUtils.isAngleBetween a s e = true ↔
      (if MathUtils.normalizeAngle s ≤ MathUtils.normalizeAngle e then
        MathUtils.normalizeAngle s ≤ MathUtils.normalizeAngle a ∧
          MathUtils.normalizeAngle a ≤ MathUtils.normalizeAngle e
      else
        MathUtils.normalizeAngle s ≤ MathUtils.normalizeAngle a ∨
          MathUtils.normalizeAngle a ≤ MathUtils.normalizeAngle e)) ∧
    ((-360 : ℝ) ≤ a → MathUtils.normalizeAngle a ∈ Set.Ico (0 : ℝ) 360) ∧
    MathUtils.isAngleBetween s s e = true ∧
    MathUtils.isAngleBetween e s e = true ∧
    MathUtils.isAngleBetween 0 350 10 = true ∧
    MathUtils.isAngleBetween 180 350 10 = false := by
  refine ⟨isAngleBetween_iff a s e, ?_, ?_, ?_, iab_0_350_10, iab_180_350_10⟩
  · intro ha
    exact jsMod_mem_Ico (a + 360) 360 (by norm_num) (by linarith)
  · apply isAngleBetween_eq_true
    split_ifs with hc
    · exact ⟨le_rfl, hc⟩
    · exact Or.inl le_rfl
  · apply isAngleBetween_eq_true
    split_ifs with hc
    · exact ⟨hc, le_rfl⟩
    · exact Or.inr le_rfl

/-- C3, witness: the characterization instantiated at
`(angle, start, end) = (0, 350, 10)`, with the `-360 ≤ angle`
hypothesis discharged at `angle = 0`. -/
theorem isAngleBetween_characterization_witness :
    MathUtils.normalizeAngle 0 ∈ Set.Ico (0 : ℝ) 360 ∧
    MathUtils.isAngleBetween 0 350 10 = true :=
  ⟨(isAngleBetween_characterization 0 350 10).2.1 (by norm_num),
   (isAngleBetween_characterization 0 350 10).2.2.2.2.1⟩

/-- C4, counterexample.  The claim says `fromPolar` uses the `-90`
degree offset convention, i.e. agrees with `polarToCartesian`.  At
`r = 1`, `angle = 90` the two differ: `fromPolar` gives `(0, 1)`
(x-coordinate `cos (π/2) = 0`) while the claimed formula gives
`(1, 0)`. -/
theorem fromPolar_offset_counterexample :
    (Vector.fromPolar 1 90).x = 0 ∧
    (MathUtils.polarToCartesian 1 90).x = 1 ∧
    Vector.fromPolar 1 90 ≠ MathUtils.polarToCartesian 1 90 := by
  have h1 : (Vector.fromPolar 1 90).x = 0 := by
    show (1 : ℝ) * Real.cos (MathUtils.degreesToRadians 90) = 0
    rw [show MathUtils.degreesToRadians 90 = Real.pi / 2 by
        unfold MathUtils.degreesToRadians; ring]
    rw [Real.cos_pi_div_two, mul_zero]
  have h2 : (MathUtils.polarToCartesian 1 90).x = 1 := by
    show (1 : ℝ) * Real.cos (((90 : ℝ) - 90) * (Real.pi / 180)) = 1
    norm_num
  refine ⟨h1, h2, fun hEq => ?_⟩
  rw [hEq, h2] at h1
  exact one_ne_zero h1

/-- C4, amended.  `fromPolar` uses the standard mathematical
convention with no angle offset, `fromPolar r θ =
(r·cos (θ·π/180), r·sin (θ·π/180))`; the `-90°` offset convention
belongs to `polarToCartesian`, which equals `fromPolar` pre-composed
with a `-90°` shift; and the arc-path generator computes both of its
endpoints with `fromPolar`, so `fromPolar` does use the arc-path
generator's convention, which has no offset. -/
theorem fromPolar_convention (r θ radius rot ang : ℝ) :
    Vector.fromPolar r θ =
      ⟨r * Real.cos (MathUtils.degreesToRadians θ),
       r * Real.sin (MathUtils.degreesToRadians θ)⟩ ∧
    MathUtils.polarToCartesian r θ = Vector.fromPolar r (θ - 90) ∧
    generateArcPathEndpoints radius rot ang =
      (Vector.fromPolar radius (rot + ang), Vector.fromPolar radius rot) := by
  refine ⟨rfl, ?_, rfl⟩
  unfold MathUtils.polarToCartesian Vector.fromPolar MathUtils.degreesToRadians
  rw [show (θ - 90) * (Real.pi / 180) = (θ - 90) * Real.pi / 180 by ring]

/-- C7.  `rotate` stores `angle % 360` (JS remainder: sign preserved,
magnitude reduced, not normalized into `[0, 360)`), and after
`rotate a1; moveTo p; rotate a2` the stored rotation is `a2 % 360`,
independent of `a1`.  At `-50` the stored value is `-50` itself, which
differs from the full normalization `normalizeAngle (-50) = 310`. -/
theorem rotate_stores_simple_mod (s : DrawingState) (p : Vector)
    (a a1 a2 : ℝ) :
    (rotate s a).rotationAngle = jsMod a 360 ∧
    (rotate (moveTo (rotate s a1) p) a2).rotationAngle = jsMod a2 360 ∧
    (rotate s (-50)).rotationAngle = -50 ∧
    (rotate s (-50)).rotationAngle ≠ MathUtils.normalizeAngle (-50) := by
  refine ⟨rfl, rfl, ?_, ?_⟩
  · show jsMod (-50) 360 = -50
    exact jsMod_neg50
  · show jsMod (-50) 360 ≠ MathUtils.normalizeAngle (-50)
    rw [jsMod_neg50, normalizeAngle_neg50]
    norm_num

/-- C10.  A snapshot committed by `addCurrentCut` is unaffected by any
later sequence of `moveTo`, `rotate` and `setRadius` calls: the whole
history list, the committed clone included, is left untouched by pose
edits.  (In the source the clone shares the center `Vector` object with
the live cut, but every pose mutation reassigns the live cut's field to
a fresh `Vector` rather than mutating the shared one in place, which is
why the value-semantics model is faithful.) -/
theorem committed_snapshot_immutable (s : DrawingState) (es : List Edit) :
    (applyEdits (addCurrentCut s) es).cuts = s.cuts ++ [s.currentCut.clone] := by
  rw [applyEdits_cuts]
  rfl

/-- `updateEntryPointDim`'s measurement at a given state is `some (p, d)`
exactly when exactly one intersection point survives the arc filter and
its distance to the half-height is strictly between 0 and the
half-height. -/
theorem entryPointResult_eq_some_iff (s : DrawingState) (p : Vector) (d : ℝ) :
    entryPointResult s = some (p, d) ↔
      entryPointIntersections s = [p] ∧ d = s.workpieceDim.y / 2 - p.y ∧
        0 < d ∧ d < s.workpieceDim.y / 2 := by
  unfold entryPointResult
  rcases hi : entryPointIntersections s with _ | ⟨q, _ | ⟨q2, l⟩⟩
  · simp
  · show (if 0 < s.workpieceDim.y / 2 - q.y ∧
          s.workpieceDim.y / 2 - q.y < s.workpieceDim.y / 2 then
        some (q, s.workpieceDim.y / 2 - q.y) else none) = some (p, d) ↔
      [q] = [p] ∧ d = s.workpieceDim.y / 2 - p.y ∧ 0 < d ∧
        d < s.workpieceDim.y / 2
    split_ifs with hc
    · constructor
      · intro he
        simp only [Option.some.injEq, Prod.mk.injEq] at he
        obtain ⟨rfl, rfl⟩ := he
        exact ⟨rfl, rfl, hc.1, hc.2⟩
      · rintro ⟨hl, hd, h1, h2⟩
        obtain rfl : q = p := by simpa using hl
        rw [hd]
    · constructor
      · intro he
        exact absurd he (by simp)
      · rintro ⟨hl, hd, h1, h2⟩
        obtain rfl : q = p := by simpa using hl
        exact absurd ⟨hd ▸ h1, hd ▸ h2⟩ hc
  · simp

/-- `updateEntryPointDim`'s measurement at a given state is visible
exactly when one surviving point with in-range distance exists. -/
theorem entryPointResult_isSome_iff (s : DrawingState) :
    (entryPointResult s).isSome = true ↔
      ∃ p : Vector, entryPointIntersections s = [p] ∧
        0 < s.workpieceDim.y / 2 - p.y ∧
        s.workpieceDim.y / 2 - p.y < s.workpieceDim.y / 2 := by
  rw [Option.isSome_iff_exists]
  constructor
  · rintro ⟨⟨p, d⟩, hpd⟩
    have h := (entryPointResult_eq_some_iff s p d).mp hpd
    exact ⟨p, h.1, h.2.1 ▸ h.2.2.1, h.2.1 ▸ h.2.2.2⟩
  · rintro ⟨p, hl, h1, h2⟩
    exact ⟨(p, s.workpieceDim.y / 2 - p.y),
      (entryPointResult_eq_some_iff s p _).mpr ⟨hl, rfl, h1, h2⟩⟩

/-- C5, counterexample.  The claim says the measurement is recomputed
after ANY pose change, but the source calls `updateEntryPointDim` only
from `moveTo`.  Concretely: move the assembly to `(16, 0)` over a
`(10, 40)` workpiece with cutter radius 5 — the displayed measurement
becomes `some ((10, 8), 12)` — then `rotate 180`.  The displayed
measurement is unchanged (stale), while the claimed recomputation at
the current rotation (span `[270, 360]`) has no surviving intersection
and would require the measurement to be hidden. -/
theorem entryPoint_stale_after_rotate :
    (rotate (moveTo cexBase ⟨16, 0⟩) 180).entryPointDim =
      some (⟨10, 8⟩, 12) ∧
    entryPointResult (rotate (moveTo cexBase ⟨16, 0⟩) 180) = none ∧
    (rotate (moveTo cexBase ⟨16, 0⟩) 180).entryPointDim ≠
      entryPointResult (rotate (moveTo cexBase ⟨16, 0⟩) 180) := by
  have hints1 : entryPointIntersections (moveTo cexBase ⟨16, 0⟩) = [⟨10, 8⟩] := by
    show MathUtils.intersectionLineArcVertical ⟨16, 0⟩ ((5 : ℝ) + cutterKerf / 2)
      (cutterArcInherentRotation + (0 : ℝ))
      (cutterArcInherentRotation + (0 : ℝ) + cutterArcDegrees) ((10 : ℝ)) =
      [⟨10, 8⟩]
    rw [show (5 : ℝ) + cutterKerf / 2 = 10 by norm_num [cutterKerf],
      show cutterArcInherentRotation + (0 : ℝ) = 90 by
        norm_num [cutterArcInherentRotation],
      show (90 : ℝ) + cutterArcDegrees = 180 by norm_num [cutterArcDegrees]]
    exact entry_eval_90_180
  have hd1 : (rotate (moveTo cexBase ⟨16, 0⟩) 180).entryPointDim =
      some (⟨10, 8⟩, 12) := by
    have h0 : (rotate (moveTo cexBase ⟨16, 0⟩) 180).entryPointDim =
        entryPointResult (moveTo cexBase ⟨16, 0⟩) := by
      show (moveTo cexBase ⟨16, 0⟩).entryPointDim =
        entryPointResult (moveTo cexBase ⟨16, 0⟩)
      apply entryPointResult_congr <;> rfl
    rw [h0]
    refine (entryPointResult_eq_some_iff _ _ _).mpr ⟨hints1, ?_, ?_, ?_⟩
    · show (12 : ℝ) = (40 : ℝ) / 2 - (8 : ℝ)
      norm_num
    · norm_num
    · show (12 : ℝ) < (40 : ℝ) / 2
      norm_num
  have hints2 : entryPointIntersections (rotate (moveTo cexBase ⟨16, 0⟩) 180)
      = [] := by
    show MathUtils.intersectionLineArcVertical ⟨16, 0⟩ ((5 : ℝ) + cutterKerf / 2)
      (cutterArcInherentRotation + jsMod 180 360)
      (cutterArcInherentRotation + jsMod 180 360 + cutterArcDegrees)
      ((10 : ℝ)) = []
    rw [jsMod_180]
    rw [show (5 : ℝ) + cutterKerf / 2 = 10 by norm_num [cutterKerf],
      show cutterArcInherentRotation + (180 : ℝ) = 270 by
        norm_num [cutterArcInherentRotation],
      show (270 : ℝ) + cutterArcDegrees = 360 by norm_num [cutterArcDegrees]]
    exact entry_eval_270_360
  have hnone : entryPointResult (rotate (moveTo cexBase ⟨16, 0⟩) 180) = none := by
    unfold entryPointResult
    rw [hints2]
  refine ⟨hd1, hnone, ?_⟩
  rw [hd1, hnone]
  simp

/-- C5, amended.  The entry-point computation intersects the cutter
arc's absolute angular span at radius `cutterRadius + kerf/2` with the
vertical line at the workpiece's far edge, and yields a visible
measurement `(point, dy)` iff exactly one filtered intersection point
results with `0 < dy < halfHeight` — but it is re-run only on center
changes: `moveTo` refreshes the displayed measurement from the new
pose, while `rotate` and `setRadius` leave the displayed measurement
unchanged, stale relative to the new rotation or radius. -/
theorem entryPoint_visibility_spec (s : DrawingState) (p : Vector) (a r : ℝ) :
    entryPointIntersections s = MathUtils.intersectionLineArcVertical
        s.assemblyCenter (s.cutterRadius + cutterKerf / 2)
        (cutterArcInherentRotation + s.rotationAngle)
        (cutterArcInherentRotation + s.rotationAngle + cutterArcDegrees)
        s.workpieceDim.x ∧
    (∀ (q : Vector) (d : ℝ),
      entryPointResult s = some (q, d) ↔
        entryPointIntersections s = [q] ∧ d = s.workpieceDim.y / 2 - q.y ∧
          0 < d ∧ d < s.workpieceDim.y / 2) ∧
    ((entryPointResult s).isSome = true ↔
      ∃ q : Vector, entryPointIntersections s = [q] ∧
        0 < s.workpieceDim.y / 2 - q.y ∧
        s.workpieceDim.y / 2 - q.y < s.workpieceDim.y / 2) ∧
    (moveTo s p).entryPointDim = entryPointResult (moveTo s p) ∧
    (rotate s a).entryPointDim = s.entryPointDim ∧
    (setRadius s r).entryPointDim = s.entryPointDim := by
  refine ⟨rfl, entryPointResult_eq_some_iff s, entryPointResult_isSome_iff s,
    ?_, rfl, rfl⟩
  apply entryPointResult_congr <;> rfl

/-- C8.  No solver ever signals an error: a negative discriminant (for
each of the three line–arc solvers) yields the empty list, a zero
radius with the line off the center yields the empty list, an empty
intersection list hides the entry-point measurement, and an empty
tailstock intersection list gives a false reachability flag. -/
theorem degenerate_geometry_degrades :
    (∀ (c : Vector) (r s e x0 : ℝ),
      r * r - (x0 - c.x) * (x0 - c.x) < 0 →
      MathUtils.intersectionLineArcVertical c r s e x0 = []) ∧
    (∀ (c : Vector) (r s e : ℝ) (ih : Bool) (y0 : ℝ),
      r * r - (y0 - c.y) * (y0 - c.y) < 0 →
      MathUtils.intersectionLineArcHorizontal c r s e ih y0 = []) ∧
    (∀ (cc : Vector) (r s e m b : ℝ),
      (-2 * cc.x + 2 * m * (b - cc.y)) * (-2 * cc.x + 2 * m * (b - cc.y)) -
          4 * (1 + m * m) * (cc.x * cc.x + (b - cc.y) * (b - cc.y) - r * r) < 0 →
      MathUtils.intersectionLineArcAngle cc r s e m b = []) ∧
    (∀ (c : Vector) (r s e x0 : ℝ), r = 0 → x0 ≠ c.x →
      MathUtils.intersectionLineArcVertical c r s e x0 = []) ∧
    (∀ s : DrawingState, entryPointIntersections s = [] →
      entryPointResult s = none) ∧
    (∀ s : DrawingState, tailstockIntersections s = [] →
      tailstockReachable s = false) := by
  refine ⟨?_, ?_, ?_, ?_, ?_, ?_⟩
  · intro c r s e x0 h
    exact intersectionLineArcVertical_eq_nil h
  · intro c r s e ih y0 h
    exact intersectionLineArcHorizontal_eq_nil h
  · intro cc r s e m b h
    exact intersectionLineArcAngle_eq_nil h
  · intro c r s e x0 hr hx
    apply intersectionLineArcVertical_eq_nil
    rw [hr]
    have hpos : 0 < (x0 - c.x) * (x0 - c.x) :=
      mul_self_pos.mpr (sub_ne_zero.mpr hx)
    linarith
  · intro s h
    unfold entryPointResult
    rw [h]
  · intro s h
    unfold tailstockReachable
    rw [h]
    simp

/-- C8, witness: concrete degenerate inputs for every conjunct. -/
theorem degenerate_geometry_degrades_witness :
    MathUtils.intersectionLineArcVertical ⟨0, 0⟩ 10 0 360 11 = [] ∧
    MathUtils.intersectionLineArcHorizontal ⟨0, 0⟩ 10 0 360 false 11 = [] ∧
    MathUtils.intersectionLineArcAngle ⟨0, 0⟩ 10 0 360 0 11 = [] ∧
    MathUtils.intersectionLineArcVertical ⟨0, 0⟩ 0 0 360 5 = [] ∧
    entryPointResult epDemo = none ∧
    tailstockReachable tsDemo = false := by
  have h := degenerate_geometry_degrades
  refine ⟨h.1 ⟨0, 0⟩ 10 0 360 11 (by norm_num),
    h.2.1 ⟨0, 0⟩ 10 0 360 false 11 (by norm_num),
    h.2.2.1 ⟨0, 0⟩ 10 0 360 0 11 (by norm_num),
    h.2.2.2.1 ⟨0, 0⟩ 0 0 360 5 rfl (by norm_num), ?_, ?_⟩
  · apply h.2.2.2.2.1
    show MathUtils.intersectionLineArcVertical ⟨0, 0⟩ (5 + cutterKerf / 2)
      (cutterArcInherentRotation + 0) (cutterArcInherentRotation + 0 + cutterArcDegrees)
      (11 : ℝ) = []
    apply intersectionLineArcVertical_eq_nil
    norm_num [cutterKerf]
  · apply h.2.2.2.2.2
    show MathUtils.intersectionLineArcHorizontal ⟨0, 200⟩ tailstockFixArcRadius
      (tailstockInherentRotation + 0)
      (tailstockInherentRotation + 0 + tailstockFixArcDegrees) false 0 = []
    apply intersectionLineArcHorizontal_eq_nil
    norm_num [tailstockFixArcRadius]

/-- C9.  Every point returned by any of the three solvers lies within
the queried arc span (via `isAngleBetween` on its angle relative to the
arc center) and on the queried line (`x = x0`, `y = y0`, or
`y = m·x + c` respectively), and no solver ever returns more than two
points. -/
theorem solver_postconditions :
    (∀ (c : Vector) (r s e x0 : ℝ) (p : Vector),
      p ∈ MathUtils.intersectionLineArcVertical c r s e x0 →
      MathUtils.isAngleBetween ((p.subtract c).arg) s e = true ∧ p.x = x0) ∧
    (∀ (c : Vector) (r s e : ℝ) (ih : Bool) (y0 : ℝ) (p : Vector),
      p ∈ MathUtils.intersectionLineArcHorizontal c r s e ih y0 →
      MathUtils.isAngleBetween ((p.subtract c).arg) s e = true ∧ p.y = y0) ∧
    (∀ (cc : Vector) (r s e m b : ℝ) (p : Vector),
      p ∈ MathUtils.intersectionLineArcAngle cc r s e m b →
      MathUtils.isAngleBetween ((p.subtract cc).arg) s e = true ∧
        p.y = m * p.x + b) ∧
    (∀ (c : Vector) (r s e x0 : ℝ),
      (MathUtils.intersectionLineArcVertical c r s e x0).length ≤ 2) ∧
    (∀ (c : Vector) (r s e : ℝ) (ih : Bool) (y0 : ℝ),
      (MathUtils.intersectionLineArcHorizontal c r s e ih y0).length ≤ 2) ∧
    (∀ (cc : Vector) (r s e m b : ℝ),
      (MathUtils.intersectionLineArcAngle cc r s e m b).length ≤ 2) := by
  refine ⟨?_, ?_, ?_, ?_, ?_, ?_⟩
  · intro c r s e x0 p hp
    revert hp
    simp only [MathUtils.intersectionLineArcVertical]
    split_ifs with hd
    · intro hp; exact absurd hp (List.not_mem_nil p)
    · intro hp
      have h := mem_getIntersectingArcs hp
      refine ⟨h.2, ?_⟩
      rcases h.1 with rfl | rfl <;> rfl
  · intro c r s e ih y0 p hp
    revert hp
    simp only [MathUtils.intersectionLineArcHorizontal]
    split_ifs with hd
    · intro hp; exact absurd hp (List.not_mem_nil p)
    · intro hp
      have h := mem_getIntersectingArcs hp
      refine ⟨h.2, ?_⟩
      rcases h.1 with rfl | rfl <;> rfl
  · intro cc r s e m b p hp
    revert hp
    simp only [MathUtils.intersectionLineArcAngle]
    split_ifs with hd
    · intro hp; exact absurd hp (List.not_mem_nil p)
    · intro hp
      have h := mem_getIntersectingArcs hp
      refine ⟨h.2, ?_⟩
      rcases h.1 with rfl | rfl <;> rfl
  · intro c r s e x0
    simp only [MathUtils.intersectionLineArcVertical]
    split_ifs with hd
    · simp
    · exact length_getIntersectingArcs _ _ _ _ _
  · intro c r s e ih y0
    simp only [MathUtils.intersectionLineArcHorizontal]
    split_ifs with hd
    · simp
    · exact length_getIntersectingArcs _ _ _ _ _
  · intro cc r s e m b
    simp only [MathUtils.intersectionLineArcAngle]
    split_ifs with hd
    · simp
    · exact length_getIntersectingArcs _ _ _ _ _

/-- C9, witness: the returned tangent point of the vertical solver on
the arc `[-90, 90]` satisfies both postconditions. -/
theorem solver_postconditions_witness :
    MathUtils.isAngleBetween (((Vector.mk (10 : ℝ) 0).subtract ⟨0, 0⟩).arg)
      (-90) 90 = true ∧
    (Vector.mk (10 : ℝ) 0).x = 10 :=
  solver_postconditions.1 ⟨0, 0⟩ 10 (-90) 90 10 ⟨10, 0⟩
    (by rw [vertical_halfspan_tangent]; simp)

/-- C6.  Starting from an empty history and a live cut not derived from
history, committing twice (with arbitrary pose edits before and between
the commits) and then selecting the first entry leaves the history
holding exactly the second committed snapshot, and restores the live
cut's center, rotation and radius to the first commit's values.  In
general `selectCut` removes the chosen snapshot and re-appends a clone
of the live cut exactly when the live cut's derived-from-history flag
(`wasSaved`) is set. -/
theorem commit_select_semantics (s : DrawingState) (e1 e2 : List Edit)
    (t : DrawingState) (i : ℕ)
    (hflag : s.currentCut.wasSaved = false) (hcuts : s.cuts = [])
    (hi : i < t.cuts.length) :
    ((selectCut (addCurrentCut (applyEdits (addCurrentCut (applyEdits s e1)) e2)) 0).cuts =
        [(applyEdits (addCurrentCut (applyEdits s e1)) e2).currentCut.clone] ∧
      (selectCut (addCurrentCut (applyEdits (addCurrentCut (applyEdits s e1)) e2)) 0).currentCut.center =
        (applyEdits s e1).currentCut.center ∧
      (selectCut (addCurrentCut (applyEdits (addCurrentCut (applyEdits s e1)) e2)) 0).currentCut.rotation =
        (applyEdits s e1).currentCut.rotation ∧
      (selectCut (addCurrentCut (applyEdits (addCurrentCut (applyEdits s e1)) e2)) 0).currentCut.radius =
        (applyEdits s e1).currentCut.radius) ∧
    (selectCut t i).cuts = t.cuts.eraseIdx i ++
      (if t.currentCut.wasSaved then [t.currentCut.clone] else []) := by
  have part2 : ∀ (u : DrawingState) (j : ℕ), j < u.cuts.length →
      (selectCut u j).cuts = u.cuts.eraseIdx j ++
        (if u.currentCut.wasSaved then [u.currentCut.clone] else []) := by
    intro u j hj
    unfold selectCut
    rw [List.getElem?_eq_getElem hj]
    simp only [moveTo, rotate, setRadius]
    split_ifs <;> simp
  have hflag3 : (applyEdits (addCurrentCut (applyEdits s e1)) e2).currentCut.wasSaved
      = false := by
    rw [applyEdits_wasSaved]; rfl
  have hcuts3 : (applyEdits (addCurrentCut (applyEdits s e1)) e2).cuts =
      [(applyEdits s e1).currentCut.clone] := by
    rw [applyEdits_cuts]
    show (applyEdits s e1).cuts ++ [(applyEdits s e1).currentCut.clone] = _
    rw [applyEdits_cuts, hcuts, List.nil_append]
  have key : ∀ (X : DrawingState) (c1 : Cut), X.cuts = [c1] →
      X.currentCut.wasSaved = false →
      (selectCut (addCurrentCut X) 0).cuts = [X.currentCut.clone] ∧
      (selectCut (addCurrentCut X) 0).currentCut.center = c1.center ∧
      (selectCut (addCurrentCut X) 0).currentCut.rotation = c1.rotation ∧
      (selectCut (addCurrentCut X) 0).currentCut.radius = c1.radius := by
    intro X c1 hX hF
    have hcuts4 : (addCurrentCut X).cuts = [c1, X.currentCut.clone] := by
      show X.cuts ++ [X.currentCut.clone] = _
      rw [hX]; rfl
    have hflag4 : (addCurrentCut X).currentCut.wasSaved = false := rfl
    refine ⟨?_, ?_, ?_, ?_⟩ <;>
      simp [selectCut, hcuts4, hflag4, moveTo, rotate, setRadius]
  have hmain := key (applyEdits (addCurrentCut (applyEdits s e1)) e2)
    ((applyEdits s e1).currentCut.clone) hcuts3 hflag3
  exact ⟨⟨hmain.1, hmain.2.1, hmain.2.2.1, hmain.2.2.2⟩, part2 t i hi⟩

/-- C6, witness: the scenario run on a concrete initial state with
concrete edit sequences, and the general `selectCut` history equation
on a concrete state whose live cut is flagged as derived from
history. -/
theorem commit_select_semantics_witness :
    ((selectCut (addCurrentCut (applyEdits (addCurrentCut (applyEdits demoState demoE1)) demoE2)) 0).cuts =
        [(applyEdits (addCurrentCut (applyEdits demoState demoE1)) demoE2).currentCut.clone] ∧
      (selectCut (addCurrentCut (applyEdits (addCurrentCut (applyEdits demoState demoE1)) demoE2)) 0).currentCut.center =
        (applyEdits demoState demoE1).currentCut.center ∧
      (selectCut (addCurrentCut (applyEdits (addCurrentCut (applyEdits demoState demoE1)) demoE2)) 0).currentCut.rotation =
        (applyEdits demoState demoE1).currentCut.rotation ∧
      (selectCut (addCurrentCut (applyEdits (addCurrentCut (applyEdits demoState demoE1)) demoE2)) 0).currentCut.radius =
        (applyEdits demoState demoE1).currentCut.radius) ∧
    (selectCut demoHistState 0).cuts = demoHistState.cuts.eraseIdx 0 ++
      (if demoHistState.currentCut.wasSaved then [demoHistState.currentCut.clone]
       else []) :=
  commit_select_semantics demoState demoE1 demoE2 demoHistState 0 rfl rfl
    (by simp [demoHistState])

end

end Bowlsaver
